import Mathlib

/-!
Verification of the multiplexing orchestrator of `src/server.py`
(`TunnelServer`): the connection registry, the virtual-connection
lifecycle driven by packet control flags, the pending-write set, and the
per-event-source error scoping.

Modelling conventions:
* Record-layer connections, frontend connections and connection ids are
  identified by natural-number handles (`RL`, `Front`, `ConnId`); Python
  object identity becomes handle equality.
* Python dictionaries (`self.record_layers`, `self.frontends` and the
  inner id-to-frontend maps) are association lists with the usual
  lookup/assign/delete operations (`lookupA`, `insertA`, `eraseA`).
* Side effects (frontend `close`/`reset`, frontend `send`, outbound
  `send_packet`, transport `close`, log calls) are recorded in an event
  trace.
* A Python exception is `some err` in the result; the state at the point
  the exception was raised is kept, matching mutation semantics.
* External collaborators (the frontend factory, frontend `send`/`recv`
  results, `send_packet`/`continue_sending` flush reports) are
  parameters in an `Env` record, one value per modelled call site.
-/

/-- Handle of a record layer connection (`record.RecordLayer` object). -/
abbrev RL := Nat

/-- Handle of a frontend connection object. -/
abbrev Front := Nat

/-- Multiplexed connection id carried in a packet header. -/
abbrev ConnId := Nat

/-- Modelled from the spec: the control-flag bits of
`tunnel.StatusControl` (module `tunnel` is not under `src/`); the spec
describes them as four independent bits SYN, DAT, FIN, RST, combinable
in one header. The numeric bit layout is irrelevant to the orchestrator,
so each flag is a `Bool` field. -/
structure StatusControl where
  syn : Bool
  dat : Bool
  fin : Bool
  rst : Bool
deriving DecidableEq, Repr

/-- Header with only the RST bit set (`StatusControl.rst`). -/
def ctlRst : StatusControl := ⟨false, false, false, true⟩

/-- Header with only the FIN bit set (`StatusControl.fin`). -/
def ctlFin : StatusControl := ⟨false, false, true, false⟩

/-- Header with only the DAT bit set (`StatusControl.dat`). -/
def ctlDat : StatusControl := ⟨false, true, false, false⟩

/-- Header with only the SYN bit set (`StatusControl.syn`). -/
def ctlSyn : StatusControl := ⟨true, false, false, false⟩

/-- A decoded multiplex packet: the result of `tunnel.unpack_packet`
applied to one integrity-checked frame (control flags, connection id,
payload bytes). -/
structure Packet where
  control : StatusControl
  connId : ConnId
  payload : List Nat
deriving DecidableEq, Repr

/-- A member of the pending-write set `self.unfinished`: either a record
layer connection or a frontend connection. -/
inductive Conn where
  | rl (c : RL)
  | front (f : Front)
deriving DecidableEq, Repr

/-- A Python exception escaping the modelled code: a dictionary lookup
on a missing key. -/
inductive PyErr where
  | keyError
deriving DecidableEq, Repr

/-- Observable side effects of the orchestrator, in program order. -/
inductive Event where
  | frontClose (f : Front)
  | frontReset (f : Front)
  | frontSend (f : Front) (data : List Nat)
  | packetSent (c : RL) (control : StatusControl) (id : ConnId) (data : List Nat)
  | rlClose (c : RL)
  | backendClose (c : RL)
  | logWarning
  | logError
  | logInfo
  | logDebug
  | continueSending (c : RL)
  | frontSendRetry (f : Front)
deriving DecidableEq, Repr

/-- Dictionary lookup, `d[k]` as an `Option`. -/
def lookupA {β : Type} (k : Nat) : List (Nat × β) → Option β
  | [] => none
  | (j, v) :: rest => if k = j then some v else lookupA k rest

/-- Dictionary assignment `d[k] = v`: replaces the binding in place if
the key is present, otherwise appends it. -/
def insertA {β : Type} (k : Nat) (v : β) : List (Nat × β) → List (Nat × β)
  | [] => [(k, v)]
  | (j, w) :: rest => if k = j then (k, v) :: rest else (j, w) :: insertA k v rest

/-- Dictionary deletion `del d[k]` (first binding). -/
def eraseA {β : Type} (k : Nat) : List (Nat × β) → List (Nat × β)
  | [] => []
  | (j, w) :: rest => if k = j then rest else (j, w) :: eraseA k rest

/-- The keys of an association list. -/
def keysA {β : Type} (l : List (Nat × β)) : List Nat := l.map Prod.fst

/-- Modelled from the spec: `util.ObjectSet.add` (module `util` is not
under `src/`) — the pending-write set has set-membership semantics
(§4.4: `add`, `remove`, `members`), so adding a present member is a
no-op. -/
def setAdd (c : Conn) (s : List Conn) : List Conn :=
  if c ∈ s then s else s ++ [c]

/-- Modelled from the spec: `util.ObjectSet.remove` — removes the
member from the pending-write set. -/
def setRemove (c : Conn) : List Conn → List Conn
  | [] => []
  | x :: rest => if x = c then rest else x :: setRemove c rest

/-- The mutable state of `TunnelServer`: the pending-write set
`self.unfinished`, the registry `self.record_layers` (record layer →
(connection id → frontend)) and the reverse registry `self.frontends`
(frontend → (connection id, owning record layer)). -/
structure ServerState where
  unfinished : List Conn
  record_layers : List (RL × List (ConnId × Front))
  frontends : List (Front × (ConnId × RL))
deriving DecidableEq, Repr

/-- Results reported by the external collaborators, one per modelled
call site within the processed event. -/
structure Env where
  /-- `self.new_frontend()`: `some f` yields the fresh frontend handle,
  `none` models `frontend.FrontendUnavailableError`. -/
  newFrontend : Option Front
  /-- `front.send(data)` for a DAT payload: did the frontend fully
  consume/flush it? -/
  frontSendOk : Front → Bool
  /-- `conn.send_packet(bytes)`: was the packet fully flushed? -/
  sendPacketOk : RL → Bool
  /-- `conn.continue_sending()` on a writable record layer: is the
  buffered output now fully flushed? -/
  continueOk : RL → Bool
  /-- `front.send()` retry on a writable frontend: fully flushed? -/
  frontFlushOk : Front → Bool

/-- `TunnelServer._close_frontend`: perform `reset()` or `close()` on
the frontend, then drop it from `self.frontends` and from its owning
record layer's id map. Either dictionary lookup can raise `KeyError`
(after the `reset`/`close` side effect has already happened). -/
def close_frontend (st : ServerState) (front : Front) (reset : Bool) :
    Option PyErr × ServerState × List Event :=
  let ev := if reset then Event.frontReset front else Event.frontClose front
  match lookupA front st.frontends with
  | none => (some PyErr.keyError, st, [ev])
  | some (conn_id, conn) =>
    let st1 : ServerState := { st with frontends := eraseA front st.frontends }
    match lookupA conn st1.record_layers with
    | none => (some PyErr.keyError, st1, [ev])
    | some conns =>
      match lookupA conn_id conns with
      | none => (some PyErr.keyError, st1, [ev])
      | some _ =>
        (none,
         { st1 with record_layers := insertA conn (eraseA conn_id conns) st1.record_layers },
         [ev])

/-- The loop body of `TunnelServer._clean_record_layer`: close each
frontend of the snapshot list (`.values()`) gracefully, stopping if an
exception is raised. -/
def close_fronts : List Front → ServerState → Option PyErr × ServerState × List Event
  | [], st => (none, st, [])
  | f :: rest, st =>
    match close_frontend st f false with
    | (some e, st1, tr1) => (some e, st1, tr1)
    | (none, st1, tr1) =>
      let r := close_fronts rest st1
      (r.1, r.2.1, tr1 ++ r.2.2)

/-- `TunnelServer._clean_record_layer`: gracefully close every frontend
owned by the record layer, then delete its registry entry. -/
def clean_record_layer (st : ServerState) (conn : RL) :
    Option PyErr × ServerState × List Event :=
  match lookupA conn st.record_layers with
  | none => (some PyErr.keyError, st, [])
  | some conns =>
    match close_fronts (conns.map Prod.snd) st with
    | (some e, st1, tr) => (some e, st1, tr)
    | (none, st1, tr) =>
      (none, { st1 with record_layers := eraseA conn st1.record_layers }, tr)

/-- `TunnelServer._send_packet`: pack the header, send over the record
layer; if not fully flushed, add the record layer to `self.unfinished`. -/
def send_packet (env : Env) (st : ServerState) (conn : RL) (conn_id : ConnId)
    (control : StatusControl) (data : List Nat) : ServerState × List Event :=
  let ev := Event.packetSent conn control conn_id data
  if env.sendPacketOk conn then (st, [ev])
  else ({ st with unfinished := setAdd (Conn.rl conn) st.unfinished }, [ev])

/-- Re-reads the id map of `conn` and writes `conn_id ↦ front` into it
(`conns[conn_id] = front` through the dictionary alias). -/
def insertInner (st : ServerState) (conn : RL) (conn_id : ConnId) (front : Front) :
    ServerState :=
  match lookupA conn st.record_layers with
  | some m => { st with record_layers := insertA conn (insertA conn_id front m) st.record_layers }
  | none => st

/-- `TunnelServer._process_packet` on one decoded packet: RST first
(reset-close and return), else SYN (force-close an occupant, then create
a frontend — or send an RST and return if the factory is unavailable),
then DAT (deliver payload, pending-write on partial flush), then FIN
(graceful close). Dictionary lookups of an unregistered id raise
`KeyError`. -/
def process_packet (env : Env) (st : ServerState) (conn : RL) (pkt : Packet) :
    Option PyErr × ServerState × List Event :=
  let control := pkt.control
  let conn_id := pkt.connId
  let data := pkt.payload
  match lookupA conn st.record_layers with
  | none => (some PyErr.keyError, st, [])
  | some conns0 =>
    if control.rst then
      match lookupA conn_id conns0 with
      | none => (some PyErr.keyError, st, [])
      | some front => close_frontend st front true
    else
      let synRes : Option PyErr × Bool × ServerState × List Event :=
        if control.syn then
          match
            (match lookupA conn_id conns0 with
             | some old => close_frontend st old false
             | none => (none, st, ([] : List Event))) with
          | (some e, st1, tr1) => (some e, false, st1, tr1)
          | (none, st1, tr1) =>
            match env.newFrontend with
            | none =>
              let r := send_packet env st1 conn conn_id ctlRst []
              (none, true, r.1, tr1 ++ Event.logError :: r.2)
            | some front =>
              let st2 := insertInner st1 conn conn_id front
              let st3 : ServerState :=
                { st2 with frontends := insertA front (conn_id, conn) st2.frontends }
              (none, false, st3, tr1)
        else (none, false, st, [])
      match synRes with
      | (some e, _, st1, tr1) => (some e, st1, tr1)
      | (none, true, st1, tr1) => (none, st1, tr1)
      | (none, false, st1, tr1) =>
        let datRes : Option PyErr × ServerState × List Event :=
          if control.dat then
            match lookupA conn st1.record_layers with
            | none => (some PyErr.keyError, st1, [])
            | some conns1 =>
              match lookupA conn_id conns1 with
              | none => (some PyErr.keyError, st1, [])
              | some front =>
                if env.frontSendOk front then (none, st1, [Event.frontSend front data])
                else
                  (none,
                   { st1 with unfinished := setAdd (Conn.front front) st1.unfinished },
                   [Event.frontSend front data])
          else (none, st1, [])
        match datRes with
        | (some e, st2, tr2) => (some e, st2, tr1 ++ tr2)
        | (none, st2, tr2) =>
          if control.fin then
            match lookupA conn st2.record_layers with
            | none => (some PyErr.keyError, st2, tr1 ++ tr2)
            | some conns2 =>
              match lookupA conn_id conns2 with
              | none => (some PyErr.keyError, st2, tr1 ++ tr2)
              | some front =>
                let r := close_frontend st2 front false
                (r.1, r.2.1, tr1 ++ tr2 ++ r.2.2)
          else (none, st2, tr1 ++ tr2)

/-- The packet loop of `TunnelServer._process_record_layer`: apply each
decoded packet in order; an exception aborts the loop, discarding the
remaining packets of the batch. -/
def process_packets (env : Env) (conn : RL) :
    List Packet → ServerState → Option PyErr × ServerState × List Event
  | [], st => (none, st, [])
  | p :: rest, st =>
    match process_packet env st conn p with
    | (some e, st1, tr1) => (some e, st1, tr1)
    | (none, st1, tr1) =>
      let r := process_packets env conn rest st1
      (r.1, r.2.1, tr1 ++ r.2.2)

/-- The possible outcomes of `conn.receive_packets()`: a critical
record-layer exception, a clean end of stream (`None`), or a batch of
decoded packets. -/
inductive RecvResult where
  | hashfail
  | invalidHeader
  | remoteReset
  | insecureClosing
  | otherCritical
  | eof
  | packets (ps : List Packet)

/-- Is this receive outcome a `record.CriticalException`? -/
def RecvResult.isCritical : RecvResult → Bool
  | .hashfail => true
  | .invalidHeader => true
  | .remoteReset => true
  | .insecureClosing => true
  | .otherCritical => true
  | .eof => false
  | .packets _ => false

/-- `TunnelServer._process_record_layer` given the outcome of
`conn.receive_packets()`: a critical exception tears the record layer
down, closes its transport and logs a warning; a clean end of stream
tears it down, closes record layer and transport and logs the
disconnect; otherwise each packet of the batch is processed in order. -/
def process_record_layer (env : Env) (st : ServerState) (conn : RL) (res : RecvResult) :
    Option PyErr × ServerState × List Event :=
  match res with
  | .packets ps => process_packets env conn ps st
  | .eof =>
    match clean_record_layer st conn with
    | (some e, st1, tr) => (some e, st1, tr)
    | (none, st1, tr) =>
      (none, st1, tr ++ [Event.rlClose conn, Event.backendClose conn, Event.logInfo])
  | _ =>
    match clean_record_layer st conn with
    | (some e, st1, tr) => (some e, st1, tr)
    | (none, st1, tr) =>
      (none, st1, tr ++ [Event.backendClose conn, Event.logWarning])

/-- The outcome of `front.recv()`: bytes (possibly empty), end of
stream (`None`), or an arbitrary raised exception. -/
inductive RecvData where
  | bytes (bs : List Nat)
  | eof
  | err

/-- `TunnelServer._process_frontend` given the outcome of
`front.recv()`: data becomes an outbound DAT packet; end of stream
becomes an outbound empty FIN packet followed by a graceful local
close; a raised exception is logged and becomes an outbound empty RST
packet followed by a local reset-close; an empty read sends nothing. -/
def process_frontend (env : Env) (st : ServerState) (front : Front) (res : RecvData) :
    Option PyErr × ServerState × List Event :=
  match res with
  | .err =>
    match lookupA front st.frontends with
    | none => (some PyErr.keyError, st, [])
    | some _ =>
      match lookupA front st.frontends with
      | none => (some PyErr.keyError, st, [Event.logError])
      | some (conn_id, conn) =>
        let r := send_packet env st conn conn_id ctlRst []
        let r2 := close_frontend r.1 front true
        (r2.1, r2.2.1, Event.logError :: r.2 ++ r2.2.2)
  | .bytes bs =>
    if bs.isEmpty then (none, st, [])
    else
      match lookupA front st.frontends with
      | none => (some PyErr.keyError, st, [])
      | some (conn_id, conn) =>
        let r := send_packet env st conn conn_id ctlDat bs
        (none, r.1, r.2)
  | .eof =>
    match lookupA front st.frontends with
    | none => (some PyErr.keyError, st, [])
    | some (conn_id, conn) =>
      let r := send_packet env st conn conn_id ctlFin []
      let r2 := close_frontend r.1 front false
      (r2.1, r2.2.1, r.2 ++ r2.2.2)

/-- `TunnelServer._process_sending` on one writable member of
`self.unfinished`: retry the send; if the retry reports full
completion, remove the member from the pending-write set. -/
def process_sending (env : Env) (st : ServerState) (conn : Conn) :
    ServerState × List Event :=
  match conn with
  | .rl c =>
    if env.continueOk c then
      ({ st with unfinished := setRemove conn st.unfinished }, [Event.continueSending c])
    else (st, [Event.continueSending c])
  | .front f =>
    if env.frontFlushOk f then
      ({ st with unfinished := setRemove conn st.unfinished }, [Event.frontSendRetry f])
    else (st, [Event.frontSendRetry f])

/-- The exception boundary of `TunnelServer.run` around one
record-layer readable event: any exception from `_process` is caught,
logged (error summary plus debug traceback), and the loop continues
with the state as mutated so far. -/
def run_step_record (env : Env) (st : ServerState) (conn : RL) (res : RecvResult) :
    ServerState × List Event :=
  match process_record_layer env st conn res with
  | (some _, st1, tr) => (st1, tr ++ [Event.logError, Event.logDebug])
  | (none, st1, tr) => (st1, tr)

/-! ### Association-list lemmas -/

theorem lookupA_insertA_self {β : Type} (k : Nat) (v : β) (l : List (Nat × β)) :
    lookupA k (insertA k v l) = some v := by
  induction l with
  | nil => simp [insertA, lookupA]
  | cons p rest ih =>
    by_cases h : k = p.1
    · simp [insertA, lookupA, h]
    · simp [insertA, lookupA, h, ih]

theorem lookupA_insertA_ne {β : Type} {k j : Nat} (v : β) (l : List (Nat × β))
    (h : k ≠ j) : lookupA k (insertA j v l) = lookupA k l := by
  induction l with
  | nil => simp [insertA, lookupA, h]
  | cons p rest ih =>
    by_cases hj : j = p.1
    · subst hj
      simp [insertA, lookupA, h, ih]
    · by_cases hk : k = p.1
      · simp [insertA, lookupA, hj, hk]
      · simp [insertA, lookupA, hj, hk, ih]

theorem lookupA_eraseA_ne {β : Type} {k j : Nat} (l : List (Nat × β))
    (h : k ≠ j) : lookupA k (eraseA j l) = lookupA k l := by
  induction l with
  | nil => simp [eraseA]
  | cons p rest ih =>
    by_cases hj : j = p.1
    · subst hj
      simp [eraseA, lookupA, h]
    · by_cases hk : k = p.1
      · simp [eraseA, lookupA, hj, hk]
      · simp [eraseA, lookupA, hj, hk, ih]

theorem lookupA_eq_none_iff {β : Type} (k : Nat) (l : List (Nat × β)) :
    lookupA k l = none ↔ k ∉ keysA l := by
  induction l with
  | nil => simp [lookupA, keysA]
  | cons p rest ih =>
    by_cases h : k = p.1
    · simp [lookupA, keysA, h]
    · simp [lookupA, keysA, h, ih]

theorem lookupA_eraseA_self {β : Type} (k : Nat) (l : List (Nat × β))
    (h : (keysA l).Nodup) : lookupA k (eraseA k l) = none := by
  induction l with
  | nil => simp [eraseA, lookupA]
  | cons p rest ih =>
    simp only [keysA, List.map_cons, List.nodup_cons] at h
    by_cases hk : k = p.1
    · subst hk
      simp only [eraseA, if_pos rfl]
      exact (lookupA_eq_none_iff _ _).mpr h.1
    · simp [eraseA, lookupA, hk, ih h.2]

theorem keysA_eraseA_sublist {β : Type} (k : Nat) (l : List (Nat × β)) :
    (keysA (eraseA k l)).Sublist (keysA l) := by
  induction l with
  | nil => simp [eraseA, keysA]
  | cons p rest ih =>
    by_cases hk : k = p.1
    · simp only [eraseA, if_pos hk, keysA, List.map_cons]
      exact List.sublist_cons_of_sublist _ (List.Sublist.refl _)
    · simp only [eraseA, if_neg hk, keysA, List.map_cons]
      exact List.Sublist.cons₂ _ ih

theorem keysA_eraseA_nodup {β : Type} (k : Nat) (l : List (Nat × β))
    (h : (keysA l).Nodup) : (keysA (eraseA k l)).Nodup :=
  h.sublist (keysA_eraseA_sublist k l)

theorem keysA_insertA_of_mem {β : Type} {k : Nat} {v' : β} (v : β) (l : List (Nat × β))
    (h : lookupA k l = some v') : keysA (insertA k v l) = keysA l := by
  induction l with
  | nil => simp [lookupA] at h
  | cons p rest ih =>
    by_cases hk : k = p.1
    · simp [insertA, keysA, hk]
    · simp only [lookupA, if_neg hk] at h
      have h2 := ih h
      simp only [keysA] at h2
      simp [insertA, keysA, hk, h2]

theorem insertA_of_not_mem {β : Type} {k : Nat} (v : β) (l : List (Nat × β))
    (h : lookupA k l = none) : insertA k v l = l ++ [(k, v)] := by
  induction l with
  | nil => simp [insertA]
  | cons p rest ih =>
    by_cases hk : k = p.1
    · simp [lookupA, hk] at h
    · simp only [lookupA, if_neg hk] at h
      simp [insertA, hk, ih h]

theorem eraseA_insertA_self {β : Type} (k : Nat) (v : β) (l : List (Nat × β)) :
    eraseA k (insertA k v l) = eraseA k l := by
  induction l with
  | nil => simp [insertA, eraseA]
  | cons p rest ih =>
    by_cases hk : k = p.1
    · simp [insertA, eraseA, hk]
    · simp [insertA, eraseA, hk, ih]

theorem lookupA_of_mem_nodup {β : Type} {l : List (Nat × β)} {p : Nat × β}
    (h : (keysA l).Nodup) (hp : p ∈ l) : lookupA p.1 l = some p.2 := by
  induction l with
  | nil => simp at hp
  | cons q rest ih =>
    simp only [keysA, List.map_cons, List.nodup_cons] at h
    rcases List.mem_cons.mp hp with h1 | h1
    · subst h1
      simp [lookupA]
    · have hne : p.1 ≠ q.1 := by
        intro he
        exact h.1 (he ▸ List.mem_map_of_mem Prod.fst h1)
      simp [lookupA, hne, ih h.2 h1]

theorem mem_keysA_of_lookupA {β : Type} {k : Nat} {v : β} {l : List (Nat × β)}
    (h : lookupA k l = some v) : k ∈ keysA l := by
  by_contra hk
  rw [(lookupA_eq_none_iff k l).mpr hk] at h
  exact Option.noConfusion h

/-! ### Unfolding lemmas for the teardown path -/

theorem close_frontend_ok (st : ServerState) (f : Front) (reset : Bool)
    (id : ConnId) (conn : RL) (m : List (ConnId × Front)) (g : Front)
    (hf : lookupA f st.frontends = some (id, conn))
    (hm : lookupA conn st.record_layers = some m)
    (hid : lookupA id m = some g) :
    close_frontend st f reset =
      (none,
       { st with frontends := eraseA f st.frontends,
                 record_layers := insertA conn (eraseA id m) st.record_layers },
       [if reset then Event.frontReset f else Event.frontClose f]) := by
  simp only [close_frontend, hf, hm, hid]

theorem close_fronts_spec (conn : RL) (ps : List (ConnId × Front)) :
    ∀ (st : ServerState) (m : List (ConnId × Front)),
    (keysA st.frontends).Nodup →
    lookupA conn st.record_layers = some m →
    (∀ p ∈ ps, lookupA p.2 st.frontends = some (p.1, conn)) →
    (∀ p ∈ ps, lookupA p.1 m = some p.2) →
    (ps.map Prod.fst).Nodup →
    (ps.map Prod.snd).Nodup →
    ∃ st',
      close_fronts (ps.map Prod.snd) st =
        (none, st', (ps.map Prod.snd).map Event.frontClose) ∧
      st'.unfinished = st.unfinished ∧
      (∀ f ∈ ps.map Prod.snd, lookupA f st'.frontends = none) ∧
      (∀ f, f ∉ ps.map Prod.snd → lookupA f st'.frontends = lookupA f st.frontends) ∧
      (keysA st'.frontends).Nodup ∧
      (∀ c, c ≠ conn → lookupA c st'.record_layers = lookupA c st.record_layers) ∧
      (∃ m2, lookupA conn st'.record_layers = some m2) ∧
      keysA st'.record_layers = keysA st.record_layers := by
  induction ps with
  | nil =>
    intro st m hnd hm _ _ _ _
    exact ⟨st, rfl, rfl, by simp, fun f _ => rfl, hnd, fun c _ => rfl, ⟨m, hm⟩, rfl⟩
  | cons p rest ih =>
    intro st m hnd hm hrev hfwd hk hv
    have hf : lookupA p.2 st.frontends = some (p.1, conn) := hrev p (List.mem_cons_self p rest)
    have hid : lookupA p.1 m = some p.2 := hfwd p (List.mem_cons_self p rest)
    have hclose := close_frontend_ok st p.2 false p.1 conn m p.2 hf hm hid
    have hknotin : p.1 ∉ rest.map Prod.fst := by
      have := hk
      simp only [List.map_cons, List.nodup_cons] at this
      exact this.1
    have hvnotin : p.2 ∉ rest.map Prod.snd := by
      have := hv
      simp only [List.map_cons, List.nodup_cons] at this
      exact this.1
    set stA : ServerState :=
      { st with frontends := eraseA p.2 st.frontends,
                record_layers := insertA conn (eraseA p.1 m) st.record_layers } with hstA
    have hndA : (keysA stA.frontends).Nodup := keysA_eraseA_nodup _ _ hnd
    have hmA : lookupA conn stA.record_layers = some (eraseA p.1 m) :=
      lookupA_insertA_self conn _ _
    have hrevA : ∀ q ∈ rest, lookupA q.2 stA.frontends = some (q.1, conn) := by
      intro q hq
      have hne : q.2 ≠ p.2 := by
        intro he
        exact hvnotin (he ▸ List.mem_map_of_mem Prod.snd hq)
      calc lookupA q.2 stA.frontends = lookupA q.2 st.frontends :=
            lookupA_eraseA_ne _ hne
        _ = some (q.1, conn) := hrev q (List.mem_cons_of_mem p hq)
    have hfwdA : ∀ q ∈ rest, lookupA q.1 (eraseA p.1 m) = some q.2 := by
      intro q hq
      have hne : q.1 ≠ p.1 := by
        intro he
        exact hknotin (he ▸ List.mem_map_of_mem Prod.fst hq)
      calc lookupA q.1 (eraseA p.1 m) = lookupA q.1 m := lookupA_eraseA_ne _ hne
        _ = some q.2 := hfwd q (List.mem_cons_of_mem p hq)
    have hkA : (rest.map Prod.fst).Nodup := by
      have := hk
      simp only [List.map_cons, List.nodup_cons] at this
      exact this.2
    have hvA : (rest.map Prod.snd).Nodup := by
      have := hv
      simp only [List.map_cons, List.nodup_cons] at this
      exact this.2
    obtain ⟨st', hrun, hunf, hgone, hkeep, hnd', hother, hmem', hkeys'⟩ :=
      ih stA (eraseA p.1 m) hndA hmA hrevA hfwdA hkA hvA
    refine ⟨st', ?_, ?_, ?_, ?_, hnd', ?_, hmem', ?_⟩
    · simp only [List.map_cons, close_fronts, hclose, hrun]
      simp
    · exact hunf.trans rfl
    · intro f hfm
      simp only [List.map_cons, List.mem_cons] at hfm
      rcases hfm with h1 | h1
      · rw [h1]
        calc lookupA p.2 st'.frontends = lookupA p.2 stA.frontends := hkeep p.2 hvnotin
          _ = none := lookupA_eraseA_self _ _ hnd
      · exact hgone f h1
    · intro f hfm
      simp only [List.map_cons, List.mem_cons, not_or] at hfm
      calc lookupA f st'.frontends = lookupA f stA.frontends := hkeep f hfm.2
        _ = lookupA f st.frontends := lookupA_eraseA_ne _ hfm.1
    · intro c hc
      calc lookupA c st'.record_layers = lookupA c stA.record_layers := hother c hc
        _ = lookupA c st.record_layers := lookupA_insertA_ne _ _ hc
    · calc keysA st'.record_layers = keysA stA.record_layers := hkeys'
        _ = keysA st.record_layers := keysA_insertA_of_mem _ _ hm

theorem clean_record_layer_spec (st : ServerState) (conn : RL)
    (m : List (ConnId × Front))
    (hndrl : (keysA st.record_layers).Nodup)
    (hndfr : (keysA st.frontends).Nodup)
    (hm : lookupA conn st.record_layers = some m)
    (hkeys : (m.map Prod.fst).Nodup)
    (hvals : (m.map Prod.snd).Nodup)
    (hrev : ∀ p ∈ m, lookupA p.2 st.frontends = some (p.1, conn)) :
    ∃ st',
      clean_record_layer st conn =
        (none, st', (m.map Prod.snd).map Event.frontClose) ∧
      st'.unfinished = st.unfinished ∧
      lookupA conn st'.record_layers = none ∧
      (∀ c, c ≠ conn → lookupA c st'.record_layers = lookupA c st.record_layers) ∧
      (∀ f ∈ m.map Prod.snd, lookupA f st'.frontends = none) ∧
      (∀ f, f ∉ m.map Prod.snd → lookupA f st'.frontends = lookupA f st.frontends) ∧
      (keysA st'.record_layers).Nodup ∧ (keysA st'.frontends).Nodup := by
  have hfwd : ∀ p ∈ m, lookupA p.1 m = some p.2 := by
    intro p hp
    exact lookupA_of_mem_nodup hkeys hp
  obtain ⟨stC, hrun, hunf, hgone, hkeep, hndC, hother, hmem, hkeysC⟩ :=
    close_fronts_spec conn m st m hndfr hm hrev hfwd hkeys hvals
  have hndCrl : (keysA stC.record_layers).Nodup := hkeysC ▸ hndrl
  refine ⟨{ stC with record_layers := eraseA conn stC.record_layers }, ?_, hunf, ?_, ?_,
    hgone, hkeep, ?_, hndC⟩
  · simp only [clean_record_layer, hm, hrun]
  · exact lookupA_eraseA_self conn _ hndCrl
  · intro c hc
    calc lookupA c (eraseA conn stC.record_layers) = lookupA c stC.record_layers :=
          lookupA_eraseA_ne _ hc
      _ = lookupA c st.record_layers := hother c hc
  · exact keysA_eraseA_nodup _ _ hndCrl

theorem insertA_insertA_self {β : Type} (k : Nat) (v w : β) (l : List (Nat × β)) :
    insertA k v (insertA k w l) = insertA k v l := by
  induction l with
  | nil => simp [insertA]
  | cons p rest ih =>
    by_cases hk : k = p.1
    · simp [insertA, hk]
    · simp [insertA, hk, ih]

theorem keysA_insertA_nodup {β : Type} (k : Nat) (v : β) (l : List (Nat × β))
    (h : (keysA l).Nodup) : (keysA (insertA k v l)).Nodup := by
  cases hl : lookupA k l with
  | some w => rw [keysA_insertA_of_mem v l hl]; exact h
  | none =>
    rw [insertA_of_not_mem v l hl]
    have hk : k ∉ keysA l := (lookupA_eq_none_iff k l).mp hl
    simp only [keysA, List.map_append, List.map_cons, List.map_nil]
    simp only [keysA] at h hk
    simp [List.nodup_append, h, hk]

/-- Number of registry bindings carrying a given key. -/
def countKey {β : Type} (k : Nat) (l : List (Nat × β)) : Nat := (keysA l).count k

theorem countKey_eq_one_of_lookupA {β : Type} {k : Nat} {v : β} {l : List (Nat × β)}
    (hnd : (keysA l).Nodup) (h : lookupA k l = some v) : countKey k l = 1 :=
  List.count_eq_one_of_mem hnd (mem_keysA_of_lookupA h)

/-! ### Pending-write set lemmas -/

theorem setAdd_of_mem {c : Conn} {s : List Conn} (h : c ∈ s) : setAdd c s = s :=
  if_pos h

theorem mem_setAdd_self (c : Conn) (s : List Conn) : c ∈ setAdd c s := by
  unfold setAdd
  by_cases h : c ∈ s
  · simp [h]
  · simp [h]

theorem nodup_setAdd (c : Conn) {s : List Conn} (h : s.Nodup) : (setAdd c s).Nodup := by
  unfold setAdd
  by_cases hm : c ∈ s
  · simpa [hm]
  · simp [hm, List.nodup_append, h]

theorem count_setAdd_self (c : Conn) {s : List Conn} (h : s.Nodup) :
    (setAdd c s).count c = 1 := by
  unfold setAdd
  by_cases hm : c ∈ s
  · simp only [if_pos hm]
    exact List.count_eq_one_of_mem h hm
  · simp only [if_neg hm]
    simp [List.count_append, List.count_eq_zero.mpr hm]

theorem count_setRemove_self (c : Conn) {s : List Conn} (h : s.Nodup) :
    (setRemove c s).count c = 0 := by
  induction s with
  | nil => simp [setRemove]
  | cons x rest ih =>
    rcases List.nodup_cons.mp h with ⟨hx, hrest⟩
    by_cases hxc : x = c
    · subst hxc
      simp only [setRemove, if_pos rfl]
      exact List.count_eq_zero.mpr hx
    · simp only [setRemove, if_neg hxc]
      simp [List.count_cons, hxc, ih hrest]

/-! ### Concrete fixtures -/

/-- Concrete collaborator results: fresh frontend handle 20 available,
every send fully flushed, every retry completes. -/
def envW : Env :=
  { newFrontend := some 20, frontSendOk := fun _ => true, sendPacketOk := fun _ => true,
    continueOk := fun _ => true, frontFlushOk := fun _ => true }

/-- Concrete collaborator results where nothing flushes completely and
the frontend factory is unavailable. -/
def envB : Env :=
  { newFrontend := none, frontSendOk := fun _ => false, sendPacketOk := fun _ => false,
    continueOk := fun _ => false, frontFlushOk := fun _ => false }

/-- Concrete server state: record layer 0 owns frontend 10 under
connection id 1; nothing is pending. -/
def stW : ServerState :=
  { unfinished := [], record_layers := [(0, [(1, 10)])], frontends := [(10, (1, 0))] }

/-- Concrete server state: like `stW`, but frontend 10 sits in the
pending-write set (its last send reported incomplete). -/
def stP : ServerState :=
  { unfinished := [Conn.front 10], record_layers := [(0, [(1, 10)])], frontends := [(10, (1, 0))] }

/-! ### Claim theorems -/

/-- C1: tearing down record layer 0 (here through a critical framing
error) leaves zero Registry entries referencing it or its frontend —
but the pending-write set still holds its former frontend 10: no
teardown path in `server.py` ever removes a member of
`self.unfinished`, so the claimed pending-write half of teardown
completeness fails on the code. -/
theorem teardown_leaves_dangling_pending_write :
    (process_record_layer envW stP 0 RecvResult.hashfail).1 = none ∧
    lookupA 0 (process_record_layer envW stP 0 RecvResult.hashfail).2.1.record_layers = none ∧
    lookupA 10 (process_record_layer envW stP 0 RecvResult.hashfail).2.1.frontends = none ∧
    Conn.front 10 ∈ (process_record_layer envW stP 0 RecvResult.hashfail).2.1.unfinished := by
  decide

/-- C2 counterexample: a DAT packet for the Unopened id 5 is not a
no-op after which the server continues normally — the `KeyError` it
raises aborts the whole receive batch, so the following SYN for id 2
is discarded and id 2 is never registered. -/
theorem dat_unopened_discards_batch :
    (process_packets envW 0 [⟨ctlDat, 5, [1]⟩, ⟨ctlSyn, 2, []⟩] stW).1 = some PyErr.keyError ∧
    lookupA 0 (process_packets envW 0 [⟨ctlDat, 5, [1]⟩, ⟨ctlSyn, 2, []⟩] stW).2.1.record_layers
      = some [(1, 10)] ∧
    lookupA 2 [(1, 10)] = none := by
  decide

/-- C2 amended: a DAT packet (no SYN, no RST) for an Unopened id makes
`_process_packet` raise a `KeyError`; no payload is delivered and the
Registry and pending-write set are unchanged, and the loop-level
handler catches the error so the server keeps running — but it is an
exception that costs the rest of the batch, not a silent no-op. -/
theorem dat_unopened_keyerror (env : Env) (st : ServerState) (conn : RL) (pkt : Packet)
    (conns : List (ConnId × Front))
    (hdat : pkt.control.dat = true) (hsyn : pkt.control.syn = false)
    (hrst : pkt.control.rst = false)
    (hconn : lookupA conn st.record_layers = some conns)
    (hnone : lookupA pkt.connId conns = none) :
    process_packet env st conn pkt = (some PyErr.keyError, st, []) ∧
    run_step_record env st conn (RecvResult.packets [pkt]) =
      (st, [Event.logError, Event.logDebug]) := by
  have h1 : process_packet env st conn pkt = (some PyErr.keyError, st, []) := by
    simp only [process_packet, hconn, hrst, hsyn, hdat, if_false, if_true,
      Bool.false_eq_true, hnone, List.nil_append]
  refine ⟨h1, ?_⟩
  simp only [run_step_record, process_record_layer, process_packets, h1, List.nil_append]

/-- C2 amended, witness. -/
theorem dat_unopened_keyerror_witness :
    process_packet envW stW 0 ⟨ctlDat, 5, [1]⟩ = (some PyErr.keyError, stW, []) ∧
    run_step_record envW stW 0 (RecvResult.packets [⟨ctlDat, 5, [1]⟩]) =
      (stW, [Event.logError, Event.logDebug]) :=
  dat_unopened_keyerror envW stW 0 ⟨ctlDat, 5, [1]⟩ [(1, 10)]
    (by decide) (by decide) (by decide) (by decide) (by decide)

/-- C3: an inbound packet with the RST flag for an Open id performs
exactly a reset-close of that virtual connection — the frontend is
`reset` (not closed), the forward and reverse registry entries are
removed — and nothing else: no payload delivery, no outbound packet,
and any SYN/DAT/FIN bits in the same packet are ignored. -/
theorem rst_always_wins (env : Env) (st : ServerState) (conn : RL) (pkt : Packet)
    (conns : List (ConnId × Front)) (front : Front)
    (hrst : pkt.control.rst = true)
    (hconn : lookupA conn st.record_layers = some conns)
    (hfind : lookupA pkt.connId conns = some front)
    (hrev : lookupA front st.frontends = some (pkt.connId, conn)) :
    process_packet env st conn pkt =
      (none,
       { st with frontends := eraseA front st.frontends,
                 record_layers := insertA conn (eraseA pkt.connId conns) st.record_layers },
       [Event.frontReset front]) := by
  have hclose := close_frontend_ok st front true pkt.connId conn conns front hrev hconn hfind
  simp only [process_packet, hconn, hrst, if_true, hfind, hclose]

/-- C3, witness: an RST+SYN+DAT+FIN packet for the open id 1 on record
layer 0 reset-closes frontend 10 and does nothing else. -/
theorem rst_always_wins_witness :
    process_packet envW stW 0 ⟨⟨true, true, true, true⟩, 1, [7]⟩ =
      (none,
       { stW with frontends := eraseA 10 stW.frontends,
                  record_layers := insertA 0 (eraseA 1 [(1, 10)]) stW.record_layers },
       [Event.frontReset 10]) :=
  rst_always_wins envW stW 0 ⟨⟨true, true, true, true⟩, 1, [7]⟩ [(1, 10)] 10
    (by decide) (by decide) (by decide) (by decide)

/-- C4: any inbound SYN packet (RST excluded, since RST is processed
first and returns) for an id that is already Open first force-closes
the prior occupant with a graceful close (`frontClose`, never
`frontReset`) and only then registers the new frontend; DAT and FIN
bits in the same packet are left arbitrary and act on the new
occupant afterwards (payload delivered to it, FIN closing it again).
The prior occupant is deregistered, the updated id map still has no
duplicate keys and carries at most one binding for the reused id
(exactly one unless the same packet's FIN already closed the new
occupant), so at most one virtual connection is ever registered under
a given (record layer, connection id) pair. -/
theorem syn_reuse_closes_prior (env : Env) (st : ServerState) (conn : RL) (pkt : Packet)
    (conns : List (ConnId × Front)) (old nf : Front)
    (hsyn : pkt.control.syn = true) (hrst : pkt.control.rst = false)
    (hconn : lookupA conn st.record_layers = some conns)
    (hold : lookupA pkt.connId conns = some old)
    (hrev : lookupA old st.frontends = some (pkt.connId, conn))
    (hnew : env.newFrontend = some nf)
    (hne : nf ≠ old)
    (hknd : (keysA conns).Nodup)
    (hndfr : (keysA st.frontends).Nodup) :
    process_packet env st conn pkt =
      (none,
       { unfinished :=
           if pkt.control.dat && !(env.frontSendOk nf) then
             setAdd (Conn.front nf) st.unfinished
           else st.unfinished,
         record_layers :=
           insertA conn
             (if pkt.control.fin then
                eraseA pkt.connId (insertA pkt.connId nf (eraseA pkt.connId conns))
              else insertA pkt.connId nf (eraseA pkt.connId conns))
             st.record_layers,
         frontends :=
           if pkt.control.fin then
             eraseA nf (insertA nf (pkt.connId, conn) (eraseA old st.frontends))
           else insertA nf (pkt.connId, conn) (eraseA old st.frontends) },
       Event.frontClose old ::
         ((if pkt.control.dat then [Event.frontSend nf pkt.payload] else []) ++
          (if pkt.control.fin then [Event.frontClose nf] else []))) ∧
    (keysA (if pkt.control.fin then
        eraseA pkt.connId (insertA pkt.connId nf (eraseA pkt.connId conns))
      else insertA pkt.connId nf (eraseA pkt.connId conns))).Nodup ∧
    countKey pkt.connId
        (if pkt.control.fin then
          eraseA pkt.connId (insertA pkt.connId nf (eraseA pkt.connId conns))
        else insertA pkt.connId nf (eraseA pkt.connId conns)) =
      (if pkt.control.fin then 0 else 1) ∧
    (pkt.control.fin = false →
      lookupA pkt.connId (insertA pkt.connId nf (eraseA pkt.connId conns)) = some nf) ∧
    lookupA old
        (if pkt.control.fin then
          eraseA nf (insertA nf (pkt.connId, conn) (eraseA old st.frontends))
        else insertA nf (pkt.connId, conn) (eraseA old st.frontends)) = none := by
  have hclose := close_frontend_ok st old false pkt.connId conn conns old hrev hconn hold
  have hnd1 : (keysA (insertA pkt.connId nf (eraseA pkt.connId conns))).Nodup :=
    keysA_insertA_nodup _ _ _ (keysA_eraseA_nodup _ _ hknd)
  have hgone : lookupA old (insertA nf (pkt.connId, conn) (eraseA old st.frontends)) = none := by
    rw [lookupA_insertA_ne _ _ (Ne.symm hne)]
    exact lookupA_eraseA_self _ _ hndfr
  have hfr1self : lookupA nf (insertA nf (pkt.connId, conn) (eraseA old st.frontends)) =
      some (pkt.connId, conn) := lookupA_insertA_self _ _ _
  have hin1self : lookupA pkt.connId (insertA pkt.connId nf (eraseA pkt.connId conns)) =
      some nf := lookupA_insertA_self _ _ _
  refine ⟨?_, ?_, ?_, fun _ => lookupA_insertA_self _ _ _, ?_⟩
  · cases hdat : pkt.control.dat <;> cases hfin : pkt.control.fin
    · simp only [process_packet, hconn, hrst, hsyn, hdat, hfin, if_true, if_false,
        Bool.false_eq_true, hold, hclose, hnew, insertInner, lookupA_insertA_self,
        insertA_insertA_self, Bool.false_and, List.nil_append, List.append_nil]
    · have hclose2 := close_frontend_ok
        { unfinished := st.unfinished,
          record_layers :=
            insertA conn (insertA pkt.connId nf (eraseA pkt.connId conns)) st.record_layers,
          frontends := insertA nf (pkt.connId, conn) (eraseA old st.frontends) }
        nf false pkt.connId conn (insertA pkt.connId nf (eraseA pkt.connId conns)) nf
        hfr1self (lookupA_insertA_self _ _ _) hin1self
      simp only [process_packet, hconn, hrst, hsyn, hdat, hfin, if_true, if_false,
        Bool.false_eq_true, hold, hclose, hnew, insertInner, lookupA_insertA_self,
        insertA_insertA_self, hclose2, Bool.false_and,
        List.nil_append, List.append_nil, List.cons_append]
    · cases hfs : env.frontSendOk nf <;>
        simp only [process_packet, hconn, hrst, hsyn, hdat, hfin, if_true, if_false,
          Bool.false_eq_true, hold, hclose, hnew, insertInner, lookupA_insertA_self,
          insertA_insertA_self, hfs, Bool.true_and, Bool.not_true, Bool.not_false,
          List.nil_append, List.append_nil, List.cons_append]
    · cases hfs : env.frontSendOk nf
      · have hclose2 := close_frontend_ok
          { unfinished := setAdd (Conn.front nf) st.unfinished,
            record_layers :=
              insertA conn (insertA pkt.connId nf (eraseA pkt.connId conns)) st.record_layers,
            frontends := insertA nf (pkt.connId, conn) (eraseA old st.frontends) }
          nf false pkt.connId conn (insertA pkt.connId nf (eraseA pkt.connId conns)) nf
          hfr1self (lookupA_insertA_self _ _ _) hin1self
        simp only [process_packet, hconn, hrst, hsyn, hdat, hfin, if_true, if_false,
          Bool.false_eq_true, hold, hclose, hnew, insertInner, lookupA_insertA_self,
          insertA_insertA_self, hfs, hclose2, Bool.true_and, Bool.not_true, Bool.not_false,
          List.nil_append, List.append_nil, List.cons_append]
      · have hclose2 := close_frontend_ok
          { unfinished := st.unfinished,
            record_layers :=
              insertA conn (insertA pkt.connId nf (eraseA pkt.connId conns)) st.record_layers,
            frontends := insertA nf (pkt.connId, conn) (eraseA old st.frontends) }
          nf false pkt.connId conn (insertA pkt.connId nf (eraseA pkt.connId conns)) nf
          hfr1self (lookupA_insertA_self _ _ _) hin1self
        simp only [process_packet, hconn, hrst, hsyn, hdat, hfin, if_true, if_false,
          Bool.false_eq_true, hold, hclose, hnew, insertInner, lookupA_insertA_self,
          insertA_insertA_self, hfs, hclose2, Bool.true_and, Bool.not_true, Bool.not_false,
          List.nil_append, List.append_nil, List.cons_append]
  · cases hfin : pkt.control.fin
    · simp only [Bool.false_eq_true, if_false]
      exact hnd1
    · simp only [if_true]
      exact keysA_eraseA_nodup _ _ hnd1
  · cases hfin : pkt.control.fin
    · simp only [Bool.false_eq_true, if_false]
      exact countKey_eq_one_of_lookupA hnd1 (lookupA_insertA_self _ _ _)
    · simp only [if_true]
      exact List.count_eq_zero.mpr
        ((lookupA_eq_none_iff _ _).mp (lookupA_eraseA_self _ _ hnd1))
  · cases hfin : pkt.control.fin
    · simp only [Bool.false_eq_true, if_false]
      exact hgone
    · simp only [if_true]
      rw [lookupA_eraseA_ne _ (Ne.symm hne)]
      exact hgone

/-- C4, witness: a SYN+DAT packet for the open id 1 on record layer 0
gracefully closes frontend 10, registers the fresh frontend 20 in its
place, and delivers the attached payload to the new occupant. -/
theorem syn_reuse_closes_prior_witness :
    (process_packet envW stW 0 ⟨⟨true, true, false, false⟩, 1, [5]⟩ =
      (none,
       { unfinished :=
           if StatusControl.dat ⟨true, true, false, false⟩ && !(envW.frontSendOk 20) then
             setAdd (Conn.front 20) stW.unfinished
           else stW.unfinished,
         record_layers :=
           insertA 0
             (if StatusControl.fin ⟨true, true, false, false⟩ then
                eraseA 1 (insertA 1 20 (eraseA 1 [(1, 10)]))
              else insertA 1 20 (eraseA 1 [(1, 10)]))
             stW.record_layers,
         frontends :=
           if StatusControl.fin ⟨true, true, false, false⟩ then
             eraseA 20 (insertA 20 (1, 0) (eraseA 10 stW.frontends))
           else insertA 20 (1, 0) (eraseA 10 stW.frontends) },
       Event.frontClose 10 ::
         ((if StatusControl.dat ⟨true, true, false, false⟩ then
             [Event.frontSend 20 [5]] else []) ++
          (if StatusControl.fin ⟨true, true, false, false⟩ then
             [Event.frontClose 20] else []))) ∧
    (keysA (if StatusControl.fin ⟨true, true, false, false⟩ then
        eraseA 1 (insertA 1 20 (eraseA 1 [(1, 10)]))
      else insertA 1 20 (eraseA 1 [(1, 10)]))).Nodup ∧
    countKey 1
        (if StatusControl.fin ⟨true, true, false, false⟩ then
          eraseA 1 (insertA 1 20 (eraseA 1 [(1, 10)]))
        else insertA 1 20 (eraseA 1 [(1, 10)])) =
      (if StatusControl.fin ⟨true, true, false, false⟩ then 0 else 1) ∧
    (StatusControl.fin ⟨true, true, false, false⟩ = false →
      lookupA 1 (insertA 1 20 (eraseA 1 [(1, 10)])) = some 20) ∧
    lookupA 10
        (if StatusControl.fin ⟨true, true, false, false⟩ then
          eraseA 20 (insertA 20 (1, 0) (eraseA 10 stW.frontends))
        else insertA 20 (1, 0) (eraseA 10 stW.frontends)) = none) :=
  syn_reuse_closes_prior envW stW 0 ⟨⟨true, true, false, false⟩, 1, [5]⟩ [(1, 10)] 10 20
    (by decide) (by decide) (by decide) (by decide) (by decide) (by decide)
    (by decide) (by decide) (by decide)

theorem process_record_layer_critical (env : Env) (st : ServerState) (conn : RL)
    (res : RecvResult) (h : res.isCritical = true) :
    process_record_layer env st conn res =
      match clean_record_layer st conn with
      | (some e, st1, tr) => (some e, st1, tr)
      | (none, st1, tr) => (none, st1, tr ++ [Event.backendClose conn, Event.logWarning]) := by
  cases res <;> simp_all [RecvResult.isCritical, process_record_layer]

/-- C5: a critical record-layer receive error (hash failure, invalid
header, remote reset, insecure closing) tears down exactly that record
layer: each owned frontend receives a graceful `close` (never `reset`),
the transport is closed and a warning is logged, the error is fully
absorbed (`none`, and the loop wrapper adds nothing), the pending-write
set is untouched, every other record layer's registry entry is
untouched, and every frontend not owned by this record layer keeps its
registry entry. -/
theorem critical_error_scoped (env : Env) (st : ServerState) (conn : RL)
    (res : RecvResult) (m : List (ConnId × Front))
    (hcrit : res.isCritical = true)
    (hndrl : (keysA st.record_layers).Nodup)
    (hndfr : (keysA st.frontends).Nodup)
    (hm : lookupA conn st.record_layers = some m)
    (hkeys : (m.map Prod.fst).Nodup)
    (hvals : (m.map Prod.snd).Nodup)
    (hrev : ∀ p ∈ m, lookupA p.2 st.frontends = some (p.1, conn)) :
    ∃ st',
      process_record_layer env st conn res =
        (none, st',
         (m.map Prod.snd).map Event.frontClose ++ [Event.backendClose conn, Event.logWarning]) ∧
      run_step_record env st conn res =
        (st',
         (m.map Prod.snd).map Event.frontClose ++ [Event.backendClose conn, Event.logWarning]) ∧
      st'.unfinished = st.unfinished ∧
      lookupA conn st'.record_layers = none ∧
      (∀ c, c ≠ conn → lookupA c st'.record_layers = lookupA c st.record_layers) ∧
      (∀ f ∈ m.map Prod.snd, lookupA f st'.frontends = none) ∧
      (∀ f, f ∉ m.map Prod.snd → lookupA f st'.frontends = lookupA f st.frontends) := by
  obtain ⟨st', hrun, hunf, hgone, hother, ffgone, ffkeep, hnd1, hnd2⟩ :=
    clean_record_layer_spec st conn m hndrl hndfr hm hkeys hvals hrev
  have hproc : process_record_layer env st conn res =
      (none, st',
       (m.map Prod.snd).map Event.frontClose ++ [Event.backendClose conn, Event.logWarning]) := by
    rw [process_record_layer_critical env st conn res hcrit, hrun]
  refine ⟨st', hproc, ?_, hunf, hgone, hother, ffgone, ffkeep⟩
  simp only [run_step_record, hproc]

/-- C5, witness: a hash failure on record layer 0 owning frontends 10
(id 1) and 11 (id 2), while record layer 3 owns frontend 12: both owned
frontends are gracefully closed, the transport is closed, a warning is
logged, and record layer 3 and frontend 12 are untouched. -/
theorem critical_error_scoped_witness :
    ∃ st',
      process_record_layer envW
        { unfinished := [], record_layers := [(0, [(1, 10), (2, 11)]), (3, [(4, 12)])],
          frontends := [(10, (1, 0)), (11, (2, 0)), (12, (4, 3))] } 0 RecvResult.hashfail =
        (none, st',
         [Event.frontClose 10, Event.frontClose 11, Event.backendClose 0, Event.logWarning]) ∧
      run_step_record envW
        { unfinished := [], record_layers := [(0, [(1, 10), (2, 11)]), (3, [(4, 12)])],
          frontends := [(10, (1, 0)), (11, (2, 0)), (12, (4, 3))] } 0 RecvResult.hashfail =
        (st',
         [Event.frontClose 10, Event.frontClose 11, Event.backendClose 0, Event.logWarning]) ∧
      st'.unfinished = [] ∧
      lookupA 0 st'.record_layers = none ∧
      (∀ c, c ≠ 0 → lookupA c st'.record_layers =
        lookupA c [(0, [(1, 10), (2, 11)]), (3, [(4, 12)])]) ∧
      (∀ f ∈ [10, 11], lookupA f st'.frontends = none) ∧
      (∀ f, f ∉ [10, 11] → lookupA f st'.frontends =
        lookupA f [(10, (1, 0)), (11, (2, 0)), (12, (4, 3))]) :=
  critical_error_scoped envW
    { unfinished := [], record_layers := [(0, [(1, 10), (2, 11)]), (3, [(4, 12)])],
      frontends := [(10, (1, 0)), (11, (2, 0)), (12, (4, 3))] } 0 RecvResult.hashfail
    [(1, 10), (2, 11)] (by decide) (by decide) (by decide) (by decide) (by decide)
    (by decide) (by decide)

/-- C6: a SYN for an Unopened id when the frontend factory is
unavailable makes the server log the error and emit exactly one
outbound packet — RST flag, that id, empty payload; the Registry
(both maps) is bit-for-bit unchanged, so the id stays Unopened, and
the only possible further effect is the record layer joining the
pending-write set if that single send did not flush. -/
theorem syn_unavailable_rst (env : Env) (st : ServerState) (conn : RL) (pkt : Packet)
    (conns : List (ConnId × Front))
    (hsyn : pkt.control.syn = true) (hrst : pkt.control.rst = false)
    (hconn : lookupA conn st.record_layers = some conns)
    (hnone : lookupA pkt.connId conns = none)
    (hfac : env.newFrontend = none) :
    process_packet env st conn pkt =
      (none,
       { st with unfinished :=
           if env.sendPacketOk conn then st.unfinished
           else setAdd (Conn.rl conn) st.unfinished },
       [Event.logError, Event.packetSent conn ctlRst pkt.connId []]) := by
  cases hsp : env.sendPacketOk conn <;>
    simp only [process_packet, hconn, hrst, hsyn, if_true, if_false, Bool.false_eq_true,
      hnone, hfac, send_packet, hsp, List.nil_append, List.append_nil]

/-- C6, witness: SYN for the unopened id 3 with an unavailable factory
and a send that does not flush — exactly one outbound RST with empty
payload, registry untouched, record layer 0 queued for retry. -/
theorem syn_unavailable_rst_witness :
    process_packet envB stW 0 ⟨ctlSyn, 3, []⟩ =
      (none,
       { stW with unfinished :=
           if envB.sendPacketOk 0 then stW.unfinished
           else setAdd (Conn.rl 0) stW.unfinished },
       [Event.logError, Event.packetSent 0 ctlRst 3 []]) :=
  syn_unavailable_rst envB stW 0 ⟨ctlSyn, 3, []⟩ [(1, 10)]
    (by decide) (by decide) (by decide) (by decide) (by decide)

/-- C7: when `front.recv()` reports end of stream for an Open virtual
connection, the server emits exactly one outbound packet — FIN flag,
that connection's id, empty payload — over the owning record layer,
then closes the frontend gracefully (`frontClose`) and removes it from
both registry maps. -/
theorem frontend_eof_sends_fin (env : Env) (st : ServerState) (front : Front)
    (id : ConnId) (conn : RL) (conns : List (ConnId × Front))
    (hrev : lookupA front st.frontends = some (id, conn))
    (hconn : lookupA conn st.record_layers = some conns)
    (hfind : lookupA id conns = some front) :
    process_frontend env st front RecvData.eof =
      (none,
       { st with
           unfinished :=
             if env.sendPacketOk conn then st.unfinished
             else setAdd (Conn.rl conn) st.unfinished,
           frontends := eraseA front st.frontends,
           record_layers := insertA conn (eraseA id conns) st.record_layers },
       [Event.packetSent conn ctlFin id [], Event.frontClose front]) := by
  cases hsp : env.sendPacketOk conn
  · have hclose := close_frontend_ok
      { st with unfinished := setAdd (Conn.rl conn) st.unfinished }
      front false id conn conns front hrev hconn hfind
    simp only [process_frontend, hrev, send_packet, hsp, Bool.false_eq_true, if_false,
      hclose, List.cons_append, List.nil_append]
  · have hclose := close_frontend_ok st front false id conn conns front hrev hconn hfind
    simp only [process_frontend, hrev, send_packet, hsp, if_true, hclose,
      List.cons_append, List.nil_append]
    simp

/-- C7, witness: end of stream on frontend 10 (id 1, record layer 0)
emits one FIN packet with empty payload and removes the frontend. -/
theorem frontend_eof_sends_fin_witness :
    process_frontend envW stW 10 RecvData.eof =
      (none,
       { stW with
           unfinished :=
             if envW.sendPacketOk 0 then stW.unfinished
             else setAdd (Conn.rl 0) stW.unfinished,
           frontends := eraseA 10 stW.frontends,
           record_layers := insertA 0 (eraseA 1 [(1, 10)]) stW.record_layers },
       [Event.packetSent 0 ctlFin 1 [], Event.frontClose 10]) :=
  frontend_eof_sends_fin envW stW 10 1 0 [(1, 10)] (by decide) (by decide) (by decide)

/-- C8: when `front.recv()` raises, the failure stays scoped to that
one virtual connection: the error is logged, exactly one outbound
packet is sent — RST flag, the connection's id, empty payload — the
frontend is closed with reset semantics (`frontReset`, not
`frontClose`) and removed from both registry maps, while the owning
record layer stays registered and every other record layer and
frontend keeps its registry entry unchanged. -/
theorem frontend_error_scoped (env : Env) (st : ServerState) (front : Front)
    (id : ConnId) (conn : RL) (conns : List (ConnId × Front))
    (hrev : lookupA front st.frontends = some (id, conn))
    (hconn : lookupA conn st.record_layers = some conns)
    (hfind : lookupA id conns = some front) :
    process_frontend env st front RecvData.err =
      (none,
       { st with
           unfinished :=
             if env.sendPacketOk conn then st.unfinished
             else setAdd (Conn.rl conn) st.unfinished,
           frontends := eraseA front st.frontends,
           record_layers := insertA conn (eraseA id conns) st.record_layers },
       [Event.logError, Event.packetSent conn ctlRst id [], Event.frontReset front]) ∧
    lookupA conn (insertA conn (eraseA id conns) st.record_layers) = some (eraseA id conns) ∧
    (∀ c, c ≠ conn →
      lookupA c (insertA conn (eraseA id conns) st.record_layers) =
        lookupA c st.record_layers) ∧
    (∀ g, g ≠ front → lookupA g (eraseA front st.frontends) = lookupA g st.frontends) := by
  refine ⟨?_, lookupA_insertA_self _ _ _, fun c hc => lookupA_insertA_ne _ _ hc,
    fun g hg => lookupA_eraseA_ne _ hg⟩
  cases hsp : env.sendPacketOk conn
  · have hclose := close_frontend_ok
      { st with unfinished := setAdd (Conn.rl conn) st.unfinished }
      front true id conn conns front hrev hconn hfind
    simp only [process_frontend, hrev, send_packet, hsp, Bool.false_eq_true, if_false,
      hclose, List.cons_append, List.nil_append]
    simp
  · have hclose := close_frontend_ok st front true id conn conns front hrev hconn hfind
    simp only [process_frontend, hrev, send_packet, hsp, if_true, hclose,
      List.cons_append, List.nil_append]

/-- C8, witness: a `recv` failure on frontend 10 (id 1, record layer 0)
with a send that does not flush — one outbound RST, reset-close of
frontend 10, record layer 0 still registered, record layer 3 and its
frontend untouched. -/
theorem frontend_error_scoped_witness :
    (process_frontend envB
      { unfinished := [], record_layers := [(0, [(1, 10)]), (3, [(4, 12)])],
        frontends := [(10, (1, 0)), (12, (4, 3))] } 10 RecvData.err =
      (none,
       { unfinished := if envB.sendPacketOk 0 then [] else setAdd (Conn.rl 0) [],
         record_layers :=
           insertA 0 (eraseA 1 [(1, 10)]) [(0, [(1, 10)]), (3, [(4, 12)])],
         frontends := eraseA 10 [(10, (1, 0)), (12, (4, 3))] },
       [Event.logError, Event.packetSent 0 ctlRst 1 [], Event.frontReset 10]) ∧
    lookupA 0 (insertA 0 (eraseA 1 [(1, 10)]) [(0, [(1, 10)]), (3, [(4, 12)])]) =
      some (eraseA 1 [(1, 10)]) ∧
    (∀ c, c ≠ 0 →
      lookupA c (insertA 0 (eraseA 1 [(1, 10)]) [(0, [(1, 10)]), (3, [(4, 12)])]) =
        lookupA c [(0, [(1, 10)]), (3, [(4, 12)])]) ∧
    (∀ g, g ≠ 10 → lookupA g (eraseA 10 [(10, (1, 0)), (12, (4, 3))]) =
      lookupA g [(10, (1, 0)), (12, (4, 3))])) :=
  frontend_error_scoped envB
    { unfinished := [], record_layers := [(0, [(1, 10)]), (3, [(4, 12)])],
      frontends := [(10, (1, 0)), (12, (4, 3))] } 10 1 0 [(1, 10)]
    (by decide) (by decide) (by decide)

/-- C9: pending-write membership is exactly-once and retries stop on
completion. Starting from a duplicate-free pending-write set: an
incomplete `send_packet` puts the record layer in `self.unfinished`
with multiplicity exactly 1; a second incomplete send leaves the set
bit-for-bit unchanged (no duplicate); a writable-readiness retry that
is still incomplete leaves the set unchanged (so repeated readiness
queues nothing); a retry that completes removes the member
(multiplicity 0, so it is never retried again). The same holds for a
frontend put in the set by an incomplete `front.send` during DAT
processing. -/
theorem pending_write_exactly_once (env env2 : Env) (st : ServerState) (conn : RL)
    (id : ConnId) (ctl : StatusControl) (data : List Nat)
    (front : Front) (pkt : Packet) (conns : List (ConnId × Front))
    (hnd : st.unfinished.Nodup)
    (hsp : env.sendPacketOk conn = false)
    (hco : env.continueOk conn = false)
    (hco2 : env2.continueOk conn = true)
    (hfs : env.frontSendOk front = false)
    (hff : env2.frontFlushOk front = true)
    (hctl : pkt.control = ctlDat)
    (hconn : lookupA conn st.record_layers = some conns)
    (hfind : lookupA pkt.connId conns = some front) :
    ((send_packet env st conn id ctl data).1.unfinished.count (Conn.rl conn) = 1 ∧
     (send_packet env (send_packet env st conn id ctl data).1 conn id ctl data).1.unfinished =
       (send_packet env st conn id ctl data).1.unfinished ∧
     (process_sending env (send_packet env st conn id ctl data).1 (Conn.rl conn)).1.unfinished =
       (send_packet env st conn id ctl data).1.unfinished ∧
     (process_sending env2 (send_packet env st conn id ctl data).1
        (Conn.rl conn)).1.unfinished.count (Conn.rl conn) = 0) ∧
    ((process_packet env st conn pkt).2.1.unfinished.count (Conn.front front) = 1 ∧
     (process_sending env2 (process_packet env st conn pkt).2.1
        (Conn.front front)).1.unfinished.count (Conn.front front) = 0) := by
  have hset : (send_packet env st conn id ctl data).1.unfinished =
      setAdd (Conn.rl conn) st.unfinished := by
    simp [send_packet, hsp]
  have hpkt : (process_packet env st conn pkt).2.1.unfinished =
      setAdd (Conn.front front) st.unfinished := by
    have hc : pkt.control.rst = false ∧ pkt.control.syn = false ∧ pkt.control.dat = true ∧
        pkt.control.fin = false := by rw [hctl]; exact ⟨rfl, rfl, rfl, rfl⟩
    simp only [process_packet, hconn, hc.1, hc.2.1, hc.2.2.1, hc.2.2.2, if_false, if_true,
      Bool.false_eq_true, hfind, hfs, List.nil_append, List.append_nil]
  refine ⟨⟨?_, ?_, ?_, ?_⟩, ?_, ?_⟩
  · rw [hset]
    exact count_setAdd_self _ hnd
  · simp only [send_packet, hsp, Bool.false_eq_true, if_false]
    exact setAdd_of_mem (mem_setAdd_self _ _)
  · simp [process_sending, hco]
  · simp only [process_sending, hco2, if_true]
    rw [hset]
    exact count_setRemove_self _ (nodup_setAdd _ hnd)
  · rw [hpkt]
    exact count_setAdd_self _ hnd
  · simp only [process_sending, hff, if_true]
    rw [hpkt]
    exact count_setRemove_self _ (nodup_setAdd _ hnd)

/-- C9, witness. -/
theorem pending_write_exactly_once_witness :
    ((send_packet envB stW 0 1 ctlDat [2]).1.unfinished.count (Conn.rl 0) = 1 ∧
     (send_packet envB (send_packet envB stW 0 1 ctlDat [2]).1 0 1 ctlDat [2]).1.unfinished =
       (send_packet envB stW 0 1 ctlDat [2]).1.unfinished ∧
     (process_sending envB (send_packet envB stW 0 1 ctlDat [2]).1 (Conn.rl 0)).1.unfinished =
       (send_packet envB stW 0 1 ctlDat [2]).1.unfinished ∧
     (process_sending envW (send_packet envB stW 0 1 ctlDat [2]).1
        (Conn.rl 0)).1.unfinished.count (Conn.rl 0) = 0) ∧
    ((process_packet envB stW 0 ⟨ctlDat, 1, [2]⟩).2.1.unfinished.count (Conn.front 10) = 1 ∧
     (process_sending envW (process_packet envB stW 0 ⟨ctlDat, 1, [2]⟩).2.1
        (Conn.front 10)).1.unfinished.count (Conn.front 10) = 0) :=
  pending_write_exactly_once envB envW stW 0 1 ctlDat [2] 10 ⟨ctlDat, 1, [2]⟩ [(1, 10)]
    (by decide) (by decide) (by decide) (by decide) (by decide) (by decide)
    (by decide) (by decide) (by decide)

/-- C10: an inbound packet with RST, DAT or FIN (and no SYN) for an id
not registered under the receiving record layer raises a `KeyError`
that leaves the state untouched; in a batch it aborts the remaining
packets unprocessed, and the loop-level handler of `run` catches it
and logs, so the server itself keeps running. -/
theorem unregistered_id_raises (env : Env) (st : ServerState) (conn : RL) (pkt : Packet)
    (conns : List (ConnId × Front)) (rest : List Packet)
    (hsyn : pkt.control.syn = false)
    (hflag : pkt.control.rst = true ∨ pkt.control.dat = true ∨ pkt.control.fin = true)
    (hconn : lookupA conn st.record_layers = some conns)
    (hnone : lookupA pkt.connId conns = none) :
    process_packet env st conn pkt = (some PyErr.keyError, st, []) ∧
    process_packets env conn (pkt :: rest) st = (some PyErr.keyError, st, []) ∧
    run_step_record env st conn (RecvResult.packets (pkt :: rest)) =
      (st, [Event.logError, Event.logDebug]) := by
  have h1 : process_packet env st conn pkt = (some PyErr.keyError, st, []) := by
    cases hrst : pkt.control.rst
    · cases hdat : pkt.control.dat
      · rcases hflag with h | h | h
        · rw [hrst] at h; exact absurd h (by simp)
        · rw [hdat] at h; exact absurd h (by simp)
        · simp only [process_packet, hconn, hrst, hsyn, hdat, h, if_false, if_true,
            Bool.false_eq_true, hnone, List.nil_append, List.append_nil]
      · simp only [process_packet, hconn, hrst, hsyn, hdat, if_false, if_true,
          Bool.false_eq_true, hnone, List.nil_append]
    · simp only [process_packet, hconn, hrst, if_true, hnone]
  have h2 : process_packets env conn (pkt :: rest) st = (some PyErr.keyError, st, []) := by
    simp only [process_packets, h1]
  exact ⟨h1, h2, by simp only [run_step_record, process_record_layer, h2, List.nil_append]⟩

/-- C10, witness: a FIN packet for the unregistered id 6 raises, the
following SYN in the same batch is discarded, and the loop continues. -/
theorem unregistered_id_raises_witness :
    process_packet envW stW 0 ⟨ctlFin, 6, []⟩ = (some PyErr.keyError, stW, []) ∧
    process_packets envW 0 [⟨ctlFin, 6, []⟩, ⟨ctlSyn, 2, []⟩] stW =
      (some PyErr.keyError, stW, []) ∧
    run_step_record envW stW 0 (RecvResult.packets [⟨ctlFin, 6, []⟩, ⟨ctlSyn, 2, []⟩]) =
      (stW, [Event.logError, Event.logDebug]) :=
  unregistered_id_raises envW stW 0 ⟨ctlFin, 6, []⟩ [(1, 10)] [⟨ctlSyn, 2, []⟩]
    (by decide) (Or.inr (Or.inr (by decide))) (by decide) (by decide)
